import Mathlib

/-!
Verification development for the `search` repository: a shallow embedding of
the agent control loop (LangGraph nodes over `SearchState`), the tool-call
parser (`src/search/llm/parser.py`), the prompt formatter
(`src/search/llm/prompts.py`, `tools.py`) and the SearXNG client
(`src/search/clients/searxng.py`), together with theorems settling the
frozen specification claims.

Modelling conventions:
* Python JSON values are the inductive `Json`.  JSON numbers are modelled as
  integers only; the fuel-based `json_loads` rejects fractional/exponent
  literals, a conservative restriction (such values occur in no claim).
* Python exceptions are `Except String`; every `try/except` of the source is
  an explicit `match` on the fallible operation.
* Python dicts are association lists with last-write-wins insertion
  (`insertAssoc`) and first-match lookup (`dictGet`), which together give
  Python-dict behaviour.
* Interpreter resource limits (recursion depth of `json.loads`) are outside
  the model: `json_loads` is given enough fuel for any input.
-/

/-- JSON/Python value model. Numbers are restricted to integers. -/
inductive Json where
  | null : Json
  | bool : Bool → Json
  | num : Int → Json
  | str : String → Json
  | arr : List Json → Json
  | obj : List (String × Json) → Json

/-- Python `j == s` for a string literal `s`: true only on equal strings. -/
def jsonEqStr (j : Json) (s : String) : Bool :=
  match j with
  | .str t => t == s
  | _ => false

/-- Hex digit test (for `\uXXXX` escapes). -/
def isHexDigitC (c : Char) : Bool :=
  c.isDigit || (97 ≤ c.toNat && c.toNat ≤ 102) || (65 ≤ c.toNat && c.toNat ≤ 70)

/-- First-match lookup, Python `d[k]` / `d.get(k)` on dicts built with `insertAssoc`. -/
def dictGet (kvs : List (String × Json)) (k : String) : Option Json :=
  (kvs.find? (fun p => p.1 == k)).map (fun p => p.2)

/-- Python dict assignment `d[k] = v`: overwrite in place, else append. -/
def insertAssoc (kvs : List (String × Json)) (k : String) (v : Json) : List (String × Json) :=
  if kvs.any (fun p => p.1 == k) then
    kvs.map (fun p => if p.1 == k then (k, v) else p)
  else
    kvs ++ [(k, v)]

/-- Python `j.get(k, d)` on a parsed JSON value.  Non-dict receivers yield the
default in this model (in CPython they would raise `AttributeError`; every
call site reached by the claims has a dict receiver). -/
def jGetD (j : Json) (k : String) (d : Json) : Json :=
  match j with
  | .obj kvs => (dictGet kvs k).getD d
  | _ => d

/-- Python truthiness of a parsed JSON value. -/
def pyTruthy (j : Json) : Bool :=
  match j with
  | .null => false
  | .bool b => b
  | .num n => n != 0
  | .str s => s != ""
  | .arr xs => !xs.isEmpty
  | .obj kvs => !kvs.isEmpty

/-- The elements a Python `list` slice sees; non-lists yield `[]` in this model. -/
def Json.asList (j : Json) : List Json :=
  match j with
  | .arr xs => xs
  | _ => []

def lbrace : String := "\x7b"
def rbrace : String := "\x7d"

mutual

/-- Python `repr` of a parsed JSON value (used by `str()` on containers). -/
def reprJ : Json → String
  | .null => "None"
  | .bool true => "True"
  | .bool false => "False"
  | .num n => toString n
  | .str s => "\x27" ++ s ++ "\x27"
  | .arr xs => "[" ++ reprList xs ++ "]"
  | .obj kvs => lbrace ++ reprPairs kvs ++ rbrace

def reprList : List Json → String
  | [] => ""
  | [x] => reprJ x
  | x :: xs => reprJ x ++ ", " ++ reprList xs

def reprPairs : List (String × Json) → String
  | [] => ""
  | [(k, v)] => "\x27" ++ k ++ "\x27: " ++ reprJ v
  | (k, v) :: kvs => "\x27" ++ k ++ "\x27: " ++ reprJ v ++ ", " ++ reprPairs kvs

end

/-- Python `str()` of a parsed JSON value. -/
def pyStrJ : Json → String
  | .str s => s
  | j => reprJ j

/-- JSON whitespace accepted by `json.loads`. -/
def isJsonWs (c : Char) : Bool :=
  c == ' ' || c == '\t' || c == '\n' || c == '\r'

def skipWs (l : List Char) : List Char := l.dropWhile isJsonWs

/-- Decode one JSON string body (opening quote already consumed). -/
def parseJString : List Char → Except String (String × List Char)
  | [] => Except.error "Unterminated string"
  | '"' :: rest => Except.ok ("", rest)
  | '\\' :: 'u' :: a :: b :: c :: d :: rest =>
      if isHexDigitC a && isHexDigitC b && isHexDigitC c && isHexDigitC d then
        match parseJString rest with
        | Except.ok (s, r) =>
            let hv (x : Char) : Nat :=
              if x.isDigit then x.toNat - 48 else x.toLower.toNat - 87
            let v := 4096 * hv a + 256 * hv b + 16 * hv c + hv d
            Except.ok (String.singleton (Char.ofNat v) ++ s, r)
        | Except.error e => Except.error e
      else
        Except.error "Invalid hex escape"
  | '\\' :: e :: rest =>
      let ch : Option Char :=
        if e == '"' then some '"'
        else if e == '\\' then some '\\'
        else if e == '/' then some '/'
        else if e == 'b' then some (Char.ofNat 8)
        else if e == 'f' then some (Char.ofNat 12)
        else if e == 'n' then some '\n'
        else if e == 'r' then some '\r'
        else if e == 't' then some '\t'
        else none
      match ch with
      | none => Except.error "Invalid escape"
      | some c =>
        match parseJString rest with
        | Except.ok (s, r) => Except.ok (String.singleton c ++ s, r)
        | Except.error e2 => Except.error e2
  | c :: rest =>
      if c.toNat < 32 then Except.error "Invalid control character"
      else
        match parseJString rest with
        | Except.ok (s, r) => Except.ok (String.singleton c ++ s, r)
        | Except.error e => Except.error e

/-- Decode a JSON integer literal (fraction/exponent rejected in this model). -/
def parseJNumber (l : List Char) : Except String (Json × List Char) :=
  let (neg, l1) := match l with
    | '-' :: rest => (true, rest)
    | _ => (false, l)
  match l1 with
  | [] => Except.error "Expecting value"
  | c :: rest =>
    if c == '0' then
      match rest with
      | d :: _ =>
        if d.isDigit then Except.error "Expecting value"
        else if d == '.' || d == 'e' || d == 'E' then Except.error "non-integer number unsupported in model"
        else Except.ok (Json.num 0, rest)
      | [] => Except.ok (Json.num 0, rest)
    else if c.isDigit then
      let digits := (c :: rest).takeWhile Char.isDigit
      let rest2 := (c :: rest).dropWhile Char.isDigit
      let v : Nat := digits.foldl (fun acc d => 10 * acc + (d.toNat - 48)) 0
      match rest2 with
      | d :: _ =>
        if d == '.' || d == 'e' || d == 'E' then Except.error "non-integer number unsupported in model"
        else Except.ok (Json.num (if neg then -(v : Int) else (v : Int)), rest2)
      | [] => Except.ok (Json.num (if neg then -(v : Int) else (v : Int)), rest2)
    else Except.error "Expecting value"

/-- Wrap parsed object members as a dict value.  Python builds a dict:
duplicate keys are last-write-wins. -/
def objWrap : Except String (List (String × Json) × List Char) → Except String (Json × List Char)
  | Except.ok (kvs, r) =>
      Except.ok (Json.obj (kvs.foldl (fun acc p => insertAssoc acc p.1 p.2) []), r)
  | Except.error e => Except.error e

/-- Wrap parsed array items as an array value. -/
def arrWrap : Except String (List Json × List Char) → Except String (Json × List Char)
  | Except.ok (xs, r) => Except.ok (Json.arr xs, r)
  | Except.error e => Except.error e

mutual

/-- Strict JSON value parser (fuel-indexed for termination); mirrors `json.loads`. -/
def parseJValue : Nat → List Char → Except String (Json × List Char)
  | 0, _ => Except.error "out of fuel"
  | _ + 1, [] => Except.error "Expecting value"
  | fuel + 1, l@(c :: rest) =>
    if c == '"' then
      match parseJString rest with
      | Except.ok (s, r) => Except.ok (Json.str s, r)
      | Except.error e => Except.error e
    else if c == '{' then
      objWrap (parseJMembers fuel (skipWs rest) true)
    else if c == '[' then
      arrWrap (parseJItems fuel (skipWs rest) true)
    else if c == 't' then
      match l with
      | 't' :: 'r' :: 'u' :: 'e' :: r => Except.ok (Json.bool true, r)
      | _ => Except.error "Expecting value"
    else if c == 'f' then
      match l with
      | 'f' :: 'a' :: 'l' :: 's' :: 'e' :: r => Except.ok (Json.bool false, r)
      | _ => Except.error "Expecting value"
    else if c == 'n' then
      match l with
      | 'n' :: 'u' :: 'l' :: 'l' :: r => Except.ok (Json.null, r)
      | _ => Except.error "Expecting value"
    else
      parseJNumber l

/-- Object members; `first` marks that a closing brace may follow immediately. -/
def parseJMembers : Nat → List Char → Bool → Except String (List (String × Json) × List Char)
  | 0, _, _ => Except.error "out of fuel"
  | _ + 1, [], _ => Except.error "Unterminated object"
  | fuel + 1, c :: rest, first =>
    if first && c == '}' then Except.ok ([], rest)
    else if c == '"' then
      match parseJString rest with
      | Except.error e => Except.error e
      | Except.ok (k, r1) =>
        match skipWs r1 with
        | ':' :: r2 =>
          match parseJValue fuel (skipWs r2) with
          | Except.error e => Except.error e
          | Except.ok (v, r3) =>
            match skipWs r3 with
            | ',' :: r4 =>
              match parseJMembers fuel (skipWs r4) false with
              | Except.error e => Except.error e
              | Except.ok (kvs, r5) => Except.ok ((k, v) :: kvs, r5)
            | '}' :: r4 => Except.ok ([(k, v)], r4)
            | _ => Except.error "Expecting delimiter"
        | _ => Except.error "Expecting colon"
    else Except.error "Expecting property name"

/-- Array items; `first` marks that a closing bracket may follow immediately. -/
def parseJItems : Nat → List Char → Bool → Except String (List Json × List Char)
  | 0, _, _ => Except.error "out of fuel"
  | _ + 1, [], _ => Except.error "Unterminated array"
  | fuel + 1, l@(c :: _), first =>
    if first && c == ']' then Except.ok ([], l.tail)
    else
      match parseJValue fuel l with
      | Except.error e => Except.error e
      | Except.ok (v, r1) =>
        match skipWs r1 with
        | ',' :: r2 =>
          match parseJItems fuel (skipWs r2) false with
          | Except.error e => Except.error e
          | Except.ok (xs, r3) => Except.ok (v :: xs, r3)
        | ']' :: r2 => Except.ok ([v], r2)
        | _ => Except.error "Expecting delimiter"

end

/-- `json.loads`: parse a complete JSON document allowing surrounding whitespace. -/
def json_loads (s : String) : Except String Json :=
  match parseJValue (2 * s.length + 2) (skipWs s.data) with
  | Except.error e => Except.error e
  | Except.ok (v, rest) =>
    if (skipWs rest).isEmpty then Except.ok v else Except.error "Extra data"

/-! ## Tool-call parser (`src/search/llm/parser.py`) -/

def TOOL_CALL_START : String := "<|tool_call_start|>"
def TOOL_CALL_END : String := "<|tool_call_end|>"

/-- Python string slice `s[:n]` (code-point based). -/
def pyTake (s : String) (n : Nat) : String := (s.data.take n).asString

/-- A recovered tool invocation: the Python dict
`\x7b"name": ..., "arguments": ...\x7d`; both values are arbitrary decoded
values in the JSON format, while the pythonic format always produces a
string name and a dict of arguments. -/
structure ToolCall where
  name : Json
  arguments : Json

/-- Python whitespace stripped by `str.strip()` (ASCII fragment). -/
def isPySpace (c : Char) : Bool :=
  c == ' ' || c == '\t' || c == '\n' || c == '\r' || c == '\x0b' || c == '\x0c'

def pyStrip (s : String) : String :=
  (((s.data.dropWhile isPySpace).reverse.dropWhile isPySpace).reverse).asString

def startsWithChar (s : String) (c : Char) : Bool := s.data.head? == some c

def endsWithChar (s : String) (c : Char) : Bool := s.data.getLast? == some c

/-- Split at the first occurrence of `pat`: `(before, after-the-pattern)`. -/
def splitOnFirst (pat : List Char) : List Char → Option (List Char × List Char)
  | [] => if pat.isPrefixOf ([] : List Char) then some ([], []) else none
  | c :: rest =>
    if pat.isPrefixOf (c :: rest) then some ([], (c :: rest).drop pat.length)
    else (splitOnFirst pat rest).map (fun p => (c :: p.1, p.2))

/-- All capture groups of `re.findall(START + "(.*?)" + END, response, DOTALL)`:
scan for a start marker, then lazily up to the first end marker, repeat. -/
def findBlocksAux : Nat → List Char → List (List Char)
  | 0, _ => []
  | fuel + 1, l =>
    match splitOnFirst TOOL_CALL_START.data l with
    | none => []
    | some (_, afterStart) =>
      match splitOnFirst TOOL_CALL_END.data afterStart with
      | none => []
      | some (mid, afterEnd) => mid :: findBlocksAux fuel afterEnd

def findBlocks (s : String) : List String :=
  (findBlocksAux (s.length + 1) s.data).map List.asString

/-- `\w` (ASCII fragment of Python `re`). -/
def isWordChar (c : Char) : Bool := c.isAlphanum || c == '_'

/-- `\s` of Python `re` (ASCII fragment). -/
def isPyRegexSpace (c : Char) : Bool := isPySpace c

/-- All matches of `(\w+)\((.*?)\)` with `re.findall(..., DOTALL)`:
a word run directly followed by `(`, lazily up to the first `)`. -/
def findFuncMatchesAux : Nat → List Char → List (String × String)
  | 0, _ => []
  | _ + 1, [] => []
  | fuel + 1, c :: rest =>
    if isWordChar c then
      let run := (c :: rest).takeWhile isWordChar
      let r2 := (c :: rest).dropWhile isWordChar
      match r2 with
      | '(' :: tail =>
        match splitOnFirst [')'] tail with
        | some (params, after) =>
            (run.asString, params.asString) :: findFuncMatchesAux fuel after
        | none => []
      | _ => findFuncMatchesAux fuel r2
    else findFuncMatchesAux fuel rest

def findFuncMatches (s : String) : List (String × String) :=
  findFuncMatchesAux (s.length + 1) s.data

/-- The lookahead `(?=,\s*\w+=|$)` of the parameter regex; `$` (no MULTILINE)
matches at the end or just before a final newline. -/
def lookaheadParam (l : List Char) : Bool :=
  match l with
  | [] => true
  | ['\n'] => true
  | ',' :: rest =>
    let r2 := rest.dropWhile isPyRegexSpace
    let run := r2.takeWhile isWordChar
    if run.isEmpty then false
    else (r2.dropWhile isWordChar).head? == some '='
  | _ => false

/-- Lazy `(.+?)` before the lookahead: at least one character, then the
shortest extension putting the lookahead at the remainder. -/
def valGo : List Char → List Char → Option (List Char × List Char)
  | [], acc => some (acc.reverse, [])
  | c :: r, acc =>
    if lookaheadParam (c :: r) then some (acc.reverse, c :: r)
    else valGo r (c :: acc)

def findValue : List Char → Option (List Char × List Char)
  | [] => none
  | c :: rest => valGo rest [c]

/-- All matches of `(\w+)=(.+?)(?=,\s*\w+=|$)` with `re.findall(..., DOTALL)`. -/
def findParamMatchesAux : Nat → List Char → List (String × String)
  | 0, _ => []
  | _ + 1, [] => []
  | fuel + 1, c :: rest =>
    if isWordChar c then
      let run := (c :: rest).takeWhile isWordChar
      let r2 := (c :: rest).dropWhile isWordChar
      match r2 with
      | '=' :: valstart =>
        match findValue valstart with
        | some (value, after) =>
            (run.asString, value.asString) :: findParamMatchesAux fuel after
        | none => findParamMatchesAux fuel valstart
      | _ => findParamMatchesAux fuel r2
    else findParamMatchesAux fuel rest

def findParamMatches (s : String) : List (String × String) :=
  findParamMatchesAux (s.length + 1) s.data

/-- Python `v[1:-1]`. -/
def dropQuotes (s : String) : String := ((s.data.drop 1).dropLast).asString

/-- `_parse_pythonic_tool_calls`: repeated `identifier(parameters)` matches;
each value parsed as JSON, else as a quoted string, else as a raw token. -/
def _parse_pythonic_tool_calls (content : String) : List ToolCall :=
  (findFuncMatches content).map (fun fm =>
    let params_str := fm.2
    let args : List (String × Json) :=
      if pyStrip params_str ≠ "" then
        (findParamMatches params_str).foldl (fun acc pm =>
          let pv := pyStrip pm.2
          let v : Json :=
            match json_loads pv with
            | Except.ok j => j
            | Except.error _ =>
              if startsWithChar pv '"' && endsWithChar pv '"' then Json.str (dropQuotes pv)
              else Json.str pv
          insertAssoc acc pm.1 v) []
      else []
    { name := Json.str fm.1, arguments := Json.obj args })

/-- The loop body of `_parse_json_tool_calls`: one call per dict carrying a
`name` key, `arguments` defaulting to the empty dict. -/
def extractNamedCalls (items : List Json) : List ToolCall :=
  items.foldl (fun acc item =>
    match item with
    | Json.obj kvs =>
      match dictGet kvs "name" with
      | some n => acc ++ [{ name := n, arguments := (dictGet kvs "arguments").getD (Json.obj []) }]
      | none => acc
    | _ => acc) []

/-- `_parse_json_tool_calls` with the uncaught exception surface explicit:
`json.JSONDecodeError` is caught (`pass`), but iterating a decoded
non-container (number/boolean/null) would raise `TypeError`; a decoded string
iterates over its characters, none of which is a dict. -/
def _parse_json_tool_callsE (content : String) : Except String (List ToolCall) :=
  match json_loads content with
  | Except.error _ => Except.ok []
  | Except.ok (Json.obj kvs) => Except.ok (extractNamedCalls [Json.obj kvs])
  | Except.ok (Json.arr xs) => Except.ok (extractNamedCalls xs)
  | Except.ok (Json.str _) => Except.ok []
  | Except.ok _ => Except.error "TypeError: not iterable"

/-- One iteration of the block loop of `parse_tool_calls` (the `continue`
becomes the non-empty branch). -/
def processBlock (m : String) : Except String (List ToolCall) :=
  let ms := pyStrip m
  if startsWithChar ms '{' || startsWithChar ms '[' then
    match _parse_json_tool_callsE ms with
    | Except.error e => Except.error e
    | Except.ok parsed =>
      if parsed.isEmpty then Except.ok (_parse_pythonic_tool_calls ms)
      else Except.ok parsed
  else Except.ok (_parse_pythonic_tool_calls ms)

/-- `parse_tool_calls` with the uncaught exception surface explicit. -/
def parse_tool_callsE (response : String) : Except String (List ToolCall) :=
  (findBlocks response).foldlM (fun acc b => (processBlock b).map (fun l => acc ++ l)) []

/-- `parse_tool_calls` as the total function the rest of the code consumes. -/
def parse_tool_calls (response : String) : List ToolCall :=
  match parse_tool_callsE response with
  | Except.ok l => l
  | Except.error _ => []

/-! ## SearXNG client (`src/search/clients/searxng.py`) -/

/-- A `SearchResult` record.  `score` keeps the raw JSON value
(`item.get("score")`, absent → `None`). -/
structure SearchResult where
  title : String
  url : String
  content : String
  engine : String
  score : Json

/-- Build one `SearchResult` from one item of the response body
(string fields per `item.get(key, "")`). -/
def resultOfItem (item : Json) : SearchResult :=
  { title := pyStrJ (jGetD item "title" (Json.str ""))
  , url := pyStrJ (jGetD item "url" (Json.str ""))
  , content := pyStrJ (jGetD item "content" (Json.str ""))
  , engine := pyStrJ (jGetD item "engine" (Json.str ""))
  , score := jGetD item "score" Json.null }

/-- The per-query transport: `client.get` + `raise_for_status` + `response.json()`,
failing with `httpx.HTTPError` (`Except.error ()`), else the decoded body. -/
def Transport : Type := Json → Except Unit Json

/-- The `for query in queries[:10]` loop body: a transport failure is caught
(`except httpx.HTTPError: continue`), a success appends the first
`max_results_per_query` items of `data.get("results", [])`. -/
def searchLoop (transport : Transport) (m : Nat) : List Json → List SearchResult
  | [] => []
  | q :: qs =>
    match transport q with
    | Except.error _ => searchLoop transport m qs
    | Except.ok data =>
      (((jGetD data "results" (Json.arr [])).asList.take m).map resultOfItem)
        ++ searchLoop transport m qs

namespace SearXNGClient

/-- `SearXNGClient.search`: cap at the first 10 queries, then run the loop.
`max_results_per_query` defaults to 5 as in the source. -/
def search (transport : Transport) (queries : List Json)
    (max_results_per_query : Nat := 5) : List SearchResult :=
  searchLoop transport max_results_per_query (queries.take 10)

/-- `format_results_for_llm`: numbered rendering, content truncated at 300. -/
def format_results_for_llm (results : List SearchResult) : String :=
  if results.isEmpty then "No search results found."
  else
    String.intercalate "\n\n" (results.enum.map (fun p =>
      "[" ++ toString (p.1 + 1) ++ "] " ++ p.2.title
        ++ "\n    URL: " ++ p.2.url
        ++ "\n    " ++ pyTake p.2.content 300
        ++ (if p.2.content.length > 300 then "..." else "")))

end SearXNGClient

/-! ## Run state (`src/search/graph/state.py`) and LangGraph merge semantics -/

inductive Mode where
  | speed | balanced | quality
deriving DecidableEq

/-- Transcript entries (`AIMessage` / `ToolMessage`). -/
inductive Message where
  | ai (content : String)
  | tool (content : String) (tool_call_id : String)

/-- `SearchState`.  `verification_passed` / `verification_feedback` are not
declared channels in `state.py`; the verify node reads them with
`state.get(...)` and writes them in its `Command` update, so they are
modelled as optional fields. -/
structure SearchState where
  query : String
  messages : List Message
  search_results : List SearchResult
  iteration : Int
  max_iterations : Int
  mode : Mode
  reasoning : List Json
  response : Option String
  is_complete : Bool
  pending_tool_calls : List ToolCall
  verification_passed : Option Bool
  verification_feedback : Option String

/-- A node's returned partial update.  `messages` is the only channel
annotated with the `add` reducer in `state.py`; every other key is a
last-value channel, replaced when present in the update. -/
structure StateUpdate where
  messages : List Message := []
  search_results : Option (List SearchResult) := none
  iteration : Option Int := none
  reasoning : Option (List Json) := none
  response : Option (Option String) := none
  is_complete : Option Bool := none
  pending_tool_calls : Option (List ToolCall) := none
  verification_passed : Option (Option Bool) := none
  verification_feedback : Option (Option String) := none

/-- LangGraph channel merge: append for `messages`, replace elsewhere. -/
def applyUpdate (s : SearchState) (u : StateUpdate) : SearchState :=
  { query := s.query
  , messages := s.messages ++ u.messages
  , search_results := u.search_results.getD s.search_results
  , iteration := u.iteration.getD s.iteration
  , max_iterations := s.max_iterations
  , mode := s.mode
  , reasoning := u.reasoning.getD s.reasoning
  , response := u.response.getD s.response
  , is_complete := u.is_complete.getD s.is_complete
  , pending_tool_calls := u.pending_tool_calls.getD s.pending_tool_calls
  , verification_passed := u.verification_passed.getD s.verification_passed
  , verification_feedback := u.verification_feedback.getD s.verification_feedback }

/-! ## Graph nodes (`src/search/graph/nodes/`).  The completion text returned
by the LLM and the search transport are injected inputs. -/

/-- `re.search(r"\[.*?\]", text, DOTALL)`: first `[`, lazily to the next `]`. -/
def bracketExtract (s : String) : Option String :=
  match splitOnFirst ['['] s.data with
  | none => none
  | some (_, after) =>
    match splitOnFirst [']'] after with
    | none => none
    | some (mid, _) => some (("[".data ++ mid ++ "]".data).asString)

/-- `suggest_queries_node`: decode the first JSON array of the completion,
fall back to the original query; queue one synthetic `web_search` call.
(The `suggested_queries` key of the returned dict is not a declared channel
of `SearchState` and is dropped.) -/
def suggest_queries_node (s : SearchState) (response_text : String) : StateUpdate :=
  let queries : Json :=
    match bracketExtract response_text with
    | some sub =>
      match json_loads sub with
      | Except.ok v => v
      | Except.error _ => Json.arr []
    | none => Json.arr []
  let queries := if pyTruthy queries then queries else Json.arr [Json.str s.query]
  { pending_tool_calls :=
      some [{ name := Json.str "web_search", arguments := Json.obj [("queries", queries)] }]
  , messages := [Message.ai ("Suggested search queries: " ++ reprJ queries)] }

/-- The query extraction of `search_node`: flatten `queries` across pending
`web_search` calls, falling back to the user query.  Only `query` and
`pending_tool_calls` are read. -/
def searchNodeQueries (s : SearchState) : List Json :=
  let queries : List Json := s.pending_tool_calls.foldl (fun acc tc =>
    if jsonEqStr tc.name "web_search" then
      acc ++ (jGetD tc.arguments "queries" (Json.arr [])).asList
    else acc) []
  if queries.isEmpty then [Json.str s.query] else queries

/-- `search_node`: extract the pending queries, search, return the update. -/
def search_node (transport : Transport) (s : SearchState) : StateUpdate :=
  let results := SearXNGClient.search transport (searchNodeQueries s) 5
  { search_results := some results
  , messages := [Message.tool (SearXNGClient.format_results_for_llm results) "web_search"]
  , iteration := some (s.iteration + 1)
  , pending_tool_calls := some [] }

/-- Routing targets of `research_node`'s `Command`. -/
inductive RGoto where
  | search | respond
deriving DecidableEq

/-- `research_node` decision logic on the parsed completion text. -/
def research_node (s : SearchState) (response_text : String) : StateUpdate × RGoto :=
  let tool_calls := parse_tool_calls response_text
  let reasoning : List Json := tool_calls.foldl (fun acc tc =>
    if jsonEqStr tc.name "__reasoning_preamble" then
      let thought := jGetD tc.arguments "thought" (Json.str "")
      if pyTruthy thought then acc ++ [thought] else acc
    else acc) []
  let is_done := tool_calls.any (fun tc => jsonEqStr tc.name "done")
  if is_done || s.iteration ≥ s.max_iterations - 1 then
    ({ messages := [Message.ai response_text]
     , reasoning := some (s.reasoning ++ reasoning)
     , is_complete := some true }, RGoto.respond)
  else
    let search_calls := tool_calls.filter (fun tc => jsonEqStr tc.name "web_search")
    if !search_calls.isEmpty then
      ({ messages := [Message.ai response_text]
       , reasoning := some (s.reasoning ++ reasoning)
       , pending_tool_calls := some search_calls }, RGoto.search)
    else
      ({ messages := [Message.ai response_text]
       , reasoning := some (s.reasoning ++ reasoning)
       , is_complete := some true }, RGoto.respond)

/-- A chat message sent to the completion service. -/
structure ChatMsg where
  role : String
  content : String

/-- The fixed part of the respond-node system prompt, before the formatted
search results are substituted for `\x7bcontext\x7d`. -/
def respondPromptHead : String :=
  "You are a helpful research assistant. Based on the search results provided, generate a comprehensive and accurate response to the user\x27s query.\n\nGuidelines:\n- Use the search results to provide factual, up-to-date information\n- Cite sources when possible by mentioning the source\n- Be concise but thorough\n- If the search results are insufficient, acknowledge the limitations\n\nSearch Results:\n"

/-- The message list `respond_node` sends to the completion service. -/
def respond_messages (s : SearchState) : List ChatMsg :=
  let context :=
    if s.search_results.isEmpty then ""
    else SearXNGClient.format_results_for_llm s.search_results
  let sys := respondPromptHead
    ++ (if context == "" then "No search results available." else context)
  let sys :=
    if s.reasoning.isEmpty then sys
    else sys ++ "\n\nResearch reasoning:\n"
      ++ String.intercalate "\n" (s.reasoning.map (fun r => "- " ++ pyStrJ r))
  [{ role := "system", content := sys }, { role := "user", content := s.query }]

/-- `respond_node`'s state update: store the completion as the response. -/
def respond_node (s : SearchState) (response_text : String) : StateUpdate :=
  { response := some (some response_text), is_complete := some true }

/-- Routing targets of `verify_node`'s `Command` (`vend` is `__end__`). -/
inductive VGoto where
  | respond | vend
deriving DecidableEq

/-- `re.search(r"\x7b.*\x7d", text, DOTALL)`: greedy, from the first `\x7b`
to the last `\x7d` after it. -/
def bracesExtract (t : String) : Option String :=
  match splitOnFirst ['{'] t.data with
  | none => none
  | some (_, after) =>
    match splitOnFirst ['}'] after.reverse with
    | none => none
    | some (_, revBefore) => some (('{' :: (revBefore.reverse ++ ['}'])).asString)

/-- Feedback composition of the failed-verification branch.  `', '.join`
is modelled for string elements (non-strings would raise `TypeError`). -/
def verifyFeedback (result : Json) : String :=
  let issues := jGetD result "issues" (Json.arr [])
  let feedback := jGetD result "feedback" (Json.str "")
  if pyTruthy issues then
    "Issues: " ++ String.intercalate ", " (issues.asList.map pyStrJ) ++ ". " ++ pyStrJ feedback
  else pyStrJ feedback

/-- `verify_node`: short-circuit when already passed; else decode the first
brace-delimited JSON object of the completion; decode failure (or a missing
object, or a missing `passed` key) leaves `passed = True` (fail-open). -/
def verify_node (s : SearchState) (response_text : String) : StateUpdate × VGoto :=
  if s.verification_passed.getD false then ({}, VGoto.vend)
  else
    let passBranch : StateUpdate × VGoto :=
      ({ verification_passed := some (some true)
       , verification_feedback := some none }, VGoto.vend)
    match bracesExtract response_text with
    | none => passBranch
    | some sub =>
      match json_loads sub with
      | Except.error _ => passBranch
      | Except.ok result =>
        if pyTruthy (jGetD result "passed" (Json.bool true)) then passBranch
        else
          ({ verification_passed := some (some false)
           , verification_feedback := some (some (verifyFeedback result)) }, VGoto.respond)

/-- One node execution with its injected external input. -/
inductive NodeInput where
  | suggest (llmText : String)
  | search (transport : Transport)
  | research (llmText : String)
  | respond (llmText : String)
  | verify (llmText : String)

/-- The state after running one node and merging its update. -/
def stepState (s : SearchState) : NodeInput → SearchState
  | NodeInput.suggest t => applyUpdate s (suggest_queries_node s t)
  | NodeInput.search tr => applyUpdate s (search_node tr s)
  | NodeInput.research t => applyUpdate s (research_node s t).1
  | NodeInput.respond t => applyUpdate s (respond_node s t)
  | NodeInput.verify t => applyUpdate s (verify_node s t).1

/-! ## Tool catalogue (`src/search/llm/tools.py`) and prompt formatter
(`src/search/llm/prompts.py`).  The current date, the only external input of
`format_system_prompt`, is an explicit parameter. -/

structure ToolDef where
  name : String
  description : String
  parameters : Json

def webSearchTool : ToolDef :=
  { name := "web_search"
  , description := "Search the web for information"
  , parameters := Json.obj
      [ ("type", Json.str "object")
      , ("properties", Json.obj
          [ ("queries", Json.obj
              [ ("type", Json.str "array")
              , ("items", Json.obj [("type", Json.str "string")])
              , ("description", Json.str "List of search queries (max 10)") ]) ])
      , ("required", Json.arr [Json.str "queries"]) ] }

def doneTool : ToolDef :=
  { name := "done"
  , description := "Signal that research is complete"
  , parameters := Json.obj
      [ ("type", Json.str "object"), ("properties", Json.obj []) ] }

def reasoningPreambleTool : ToolDef :=
  { name := "__reasoning_preamble"
  , description := "Express your reasoning before each tool call"
  , parameters := Json.obj
      [ ("type", Json.str "object")
      , ("properties", Json.obj
          [ ("thought", Json.obj
              [ ("type", Json.str "string")
              , ("description", Json.str "Your reasoning for the next step") ]) ])
      , ("required", Json.arr [Json.str "thought"]) ] }

/-- `get_tools_definition`: `web_search` and `done` always; balanced/quality
insert `__reasoning_preamble` at the front. -/
def get_tools_definition (mode : Mode) : List ToolDef :=
  let tools := [webSearchTool, doneTool]
  if mode = Mode.balanced ∨ mode = Mode.quality then reasoningPreambleTool :: tools
  else tools

def toolsJson (mode : Mode) : Json :=
  Json.arr ((get_tools_definition mode).map (fun t => Json.obj
    [ ("name", Json.str t.name)
    , ("description", Json.str t.description)
    , ("parameters", t.parameters) ]))

/-- JSON string escaping of `json.dumps` (ASCII fragment). -/
def jEscape (s : String) : String :=
  s.data.foldl (fun acc c =>
    acc ++ (if c == '"' then "\\\""
      else if c == '\\' then "\\\\"
      else if c == '\n' then "\\n"
      else if c == '\t' then "\\t"
      else if c == '\r' then "\\r"
      else String.singleton c)) ""

def indentStr (lvl : Nat) : String := "".pushn ' ' (2 * lvl)

mutual

/-- `json.dumps(v, indent=2)` at nesting level `lvl`. -/
def dumpsJ (lvl : Nat) : Json → String
  | Json.null => "null"
  | Json.bool true => "true"
  | Json.bool false => "false"
  | Json.num n => toString n
  | Json.str s => "\"" ++ jEscape s ++ "\""
  | Json.arr [] => "[]"
  | Json.arr (x :: xs) =>
      "[\n" ++ String.intercalate ",\n" (dumpsItems (lvl + 1) (x :: xs))
        ++ "\n" ++ indentStr lvl ++ "]"
  | Json.obj [] => lbrace ++ rbrace
  | Json.obj (p :: ps) =>
      lbrace ++ "\n" ++ String.intercalate ",\n" (dumpsPairsD (lvl + 1) (p :: ps))
        ++ "\n" ++ indentStr lvl ++ rbrace

def dumpsItems (lvl : Nat) : List Json → List String
  | [] => []
  | x :: xs => (indentStr lvl ++ dumpsJ lvl x) :: dumpsItems lvl xs

def dumpsPairsD (lvl : Nat) : List (String × Json) → List String
  | [] => []
  | (k, v) :: ps =>
      (indentStr lvl ++ "\"" ++ jEscape k ++ "\": " ++ dumpsJ lvl v) :: dumpsPairsD lvl ps

end

def TOOL_LIST_START : String := "<|tool_list_start|>"
def TOOL_LIST_END : String := "<|tool_list_end|>"

def speedPrompt (tool_desc : String) (iteration max_iterations : Int) (today : String) : String :=
  "You are an action orchestrator. Your job is to fulfill user requests by selecting and executing the available tools—no free-form replies.\n\nToday\x27s date: "
  ++ today
  ++ "\n\nYou are currently on iteration "
  ++ toString (iteration + 1)
  ++ " of your research process and have "
  ++ toString max_iterations
  ++ " total iterations so act efficiently.\nWhen you are finished, you must call the `done` tool. Never output text directly.\n\n<goal>\nFulfill the user\x27s request as quickly as possible using the available tools.\nCall tools to gather information or perform tasks as needed.\n</goal>\n\n<core_principle>\nYour knowledge is outdated; use web search to ground answers even for seemingly basic facts.\n</core_principle>\n\n"
  ++ TOOL_LIST_START
  ++ "\n"
  ++ tool_desc
  ++ "\n"
  ++ TOOL_LIST_END
  ++ "\n\n<response_protocol>\n- NEVER output normal text to the user. ONLY call tools using "
  ++ TOOL_CALL_START
  ++ " and "
  ++ TOOL_CALL_END
  ++ " tokens.\n- Default to web_search when information is missing or stale; keep queries targeted (max 10 per call).\n- Call done when you have gathered enough to answer or performed the required actions.\n</response_protocol>"

def balancedPrompt (tool_desc : String) (iteration max_iterations : Int) (today : String) : String :=
  "You are an action orchestrator. Your job is to fulfill user requests by reasoning briefly and executing the available tools—no free-form replies.\n\nToday\x27s date: "
  ++ today
  ++ "\n\nYou are currently on iteration "
  ++ toString (iteration + 1)
  ++ " of your research process and have "
  ++ toString max_iterations
  ++ " total iterations so act efficiently.\nWhen you are finished, you must call the `done` tool. Never output text directly.\n\n<goal>\nFulfill the user\x27s request with concise reasoning plus focused actions.\nYou must call the __reasoning_preamble tool before every tool call in this assistant turn.\nAlternate: __reasoning_preamble → tool → __reasoning_preamble → tool ... and finish with __reasoning_preamble → done.\n</goal>\n\n<core_principle>\nYour knowledge is outdated; use web search to ground answers even for seemingly basic facts.\nYou can call at most 6 tools total per turn.\n</core_principle>\n\n"
  ++ TOOL_LIST_START
  ++ "\nYOU MUST CALL __reasoning_preamble BEFORE EVERY TOOL CALL IN THIS ASSISTANT TURN.\n"
  ++ tool_desc
  ++ "\n"
  ++ TOOL_LIST_END
  ++ "\n\n<response_protocol>\n- NEVER output normal text to the user. ONLY call tools using "
  ++ TOOL_CALL_START
  ++ " and "
  ++ TOOL_CALL_END
  ++ " tokens.\n- Start with __reasoning_preamble and call it before every tool call (including done).\n- Default to web_search when information is missing or stale; keep queries targeted (max 10 per call).\n- Call done only after you have the needed info or actions completed.\n</response_protocol>"

def qualityPrompt (tool_desc : String) (iteration max_iterations : Int) (today : String) : String :=
  "You are a deep-research orchestrator. Your job is to fulfill user requests with thorough, comprehensive research—no free-form replies.\n\nToday\x27s date: "
  ++ today
  ++ "\n\nYou are currently on iteration "
  ++ toString (iteration + 1)
  ++ " of your research process and have "
  ++ toString max_iterations
  ++ " total iterations.\nWhen you are finished, you must call the `done` tool. Never output text directly.\n\n<goal>\nConduct the deepest, most thorough research possible. Leave no stone unturned.\nFollow an iterative reason-act loop: call __reasoning_preamble before every tool call.\nFinish with done only when you have comprehensive, multi-angle information.\n</goal>\n\n<core_principle>\nYour knowledge is outdated; always use the available tools to ground answers.\nThis is DEEP RESEARCH mode—be exhaustive. Explore multiple angles: definitions, features, comparisons, recent news, expert opinions, use cases, limitations.\nYou can call up to 10 tools total per turn.\n</core_principle>\n\n"
  ++ TOOL_LIST_START
  ++ "\nYOU MUST CALL __reasoning_preamble BEFORE EVERY TOOL CALL IN THIS ASSISTANT TURN.\n"
  ++ tool_desc
  ++ "\n"
  ++ TOOL_LIST_END
  ++ "\n\n<research_strategy>\nFor any topic, consider searching:\n1. Core definition/overview - What is it?\n2. Features/capabilities - What can it do?\n3. Comparisons - How does it compare to alternatives?\n4. Recent news/updates - What\x27s the latest?\n5. Reviews/opinions - What do experts say?\n</research_strategy>\n\n<response_protocol>\n- NEVER output normal text to the user. ONLY call tools using "
  ++ TOOL_CALL_START
  ++ " and "
  ++ TOOL_CALL_END
  ++ " tokens.\n- Follow an iterative loop: __reasoning_preamble → tool call → __reasoning_preamble → tool call → ... → done.\n- Aim for 4-7 information-gathering calls covering different angles.\n- Call done only after comprehensive research is complete.\n</response_protocol>"

/-- `PromptFormatter.format_system_prompt`, with the current date as the
explicit `today` input. -/
def format_system_prompt (mode : Mode) (iteration max_iterations : Int)
    (today : String) : String :=
  let tool_desc := dumpsJ 0 (toolsJson mode)
  match mode with
  | Mode.speed => speedPrompt tool_desc iteration max_iterations today
  | Mode.balanced => balancedPrompt tool_desc iteration max_iterations today
  | Mode.quality => qualityPrompt tool_desc iteration max_iterations today


/-- The element sequence the JSON branch iterates over: a decoded dict is
wrapped in a singleton list, a decoded array is used as is. -/
def decodedItems (v : Json) : List Json :=
  match v with
  | Json.obj kvs => [Json.obj kvs]
  | Json.arr xs => xs
  | _ => []

/-- Claim-side characterisation of one element of a decoded JSON block:
a dict carrying a `name` key yields one call whose `arguments` defaults to
the empty dict; anything else yields nothing. -/
def namedCallOf (item : Json) : Option ToolCall :=
  match item with
  | Json.obj kvs =>
    match dictGet kvs "name" with
    | some n => some { name := n, arguments := (dictGet kvs "arguments").getD (Json.obj []) }
    | none => none
  | _ => none

/-- Claim-side per-query contribution of the search collaborator: nothing on
a transport failure, else the first `m` response items. -/
def perQuery (transport : Transport) (m : Nat) (q : Json) : List SearchResult :=
  match transport q with
  | Except.error _ => []
  | Except.ok data => ((jGetD data "results" (Json.arr [])).asList.take m).map resultOfItem

/-- Substring test (`needle in hay`), via the first-occurrence splitter. -/
def strContains (hay needle : String) : Bool :=
  (splitOnFirst needle.data hay.data).isSome

/-! ### Concrete fixtures for witnesses and counterexamples -/

/-- A fresh run state in speed mode (`query` = "q2"). -/
def emptyState : SearchState :=
  { query := "q2", messages := [], search_results := [], iteration := 0
  , max_iterations := 3, mode := Mode.speed, reasoning := [], response := none
  , is_complete := false, pending_tool_calls := [], verification_passed := none
  , verification_feedback := none }

def item1 : Json := Json.obj
  [("title", Json.str "T1"), ("url", Json.str "U1"),
   ("content", Json.str "C1"), ("engine", Json.str "E1")]

def item2 : Json := Json.obj
  [("title", Json.str "T2"), ("url", Json.str "U2"),
   ("content", Json.str "C2"), ("engine", Json.str "E2")]

def r1 : SearchResult := resultOfItem item1

def r2 : SearchResult := resultOfItem item2

/-- A transport answering query "q1" with `item1` and anything else with `item2`. -/
def t0 : Transport := fun q =>
  if jsonEqStr q "q1" then Except.ok (Json.obj [("results", Json.arr [item1])])
  else Except.ok (Json.obj [("results", Json.arr [item2])])

/-- A transport failing every query with `httpx.HTTPError`. -/
def tFail : Transport := fun _ => Except.error ()

/-- `emptyState` with one pending `web_search(queries=["q1"])` call. -/
def sInit : SearchState :=
  { emptyState with pending_tool_calls :=
      [{ name := Json.str "web_search"
       , arguments := Json.obj [("queries", Json.arr [Json.str "q1"])] }] }

/-- A state in the retry configuration: failed verification with stored
feedback, one prior result, no reasoning. -/
def sFailedVerify : SearchState :=
  { emptyState with
      query := "what"
      search_results := [r1]
      verification_passed := some false
      verification_feedback := some "FEEDBACK-XYZZY" }

/-! ## Helper lemmas -/

lemma parseJValue_brace_eq (fuel : Nat) (t : List Char) :
    parseJValue (fuel + 1) ('{' :: t) = objWrap (parseJMembers fuel (skipWs t) true) := rfl

lemma parseJValue_bracket_eq (fuel : Nat) (t : List Char) :
    parseJValue (fuel + 1) ('[' :: t) = arrWrap (parseJItems fuel (skipWs t) true) := rfl

lemma objWrap_ok_obj (x : Except String (List (String × Json) × List Char)) (v : Json)
    (r : List Char) (h : objWrap x = Except.ok (v, r)) : ∃ kvs, v = Json.obj kvs := by
  cases x with
  | error e => simp [objWrap] at h
  | ok p =>
    cases p with
    | mk kvs rr =>
      simp [objWrap] at h
      exact ⟨_, h.1.symm⟩

lemma arrWrap_ok_arr (x : Except String (List Json × List Char)) (v : Json)
    (r : List Char) (h : arrWrap x = Except.ok (v, r)) : ∃ xs, v = Json.arr xs := by
  cases x with
  | error e => simp [arrWrap] at h
  | ok p =>
    cases p with
    | mk xs rr =>
      simp [arrWrap] at h
      exact ⟨_, h.1.symm⟩

/-- A string literally beginning with `\x7b` can only decode to an object. -/
lemma json_loads_brace_obj (s : String) (v : Json)
    (hs : startsWithChar s '{' = true) (h : json_loads s = Except.ok v) :
    ∃ kvs, v = Json.obj kvs := by
  cases hd : s.data with
  | nil => simp [startsWithChar, hd] at hs
  | cons c t =>
    have hc : c = '{' := by
      simp [startsWithChar, hd] at hs
      exact hs
    subst hc
    unfold json_loads at h
    rw [hd] at h
    have hsw : skipWs ('{' :: t) = '{' :: t := by
      simp [skipWs, List.dropWhile, isJsonWs]
    rw [hsw] at h
    obtain ⟨f, hf⟩ : ∃ f, 2 * s.length + 2 = f + 1 := ⟨2 * s.length + 1, by omega⟩
    rw [hf, parseJValue_brace_eq f t] at h
    cases hp : objWrap (parseJMembers f (skipWs t) true) with
    | error e => rw [hp] at h; cases h
    | ok p =>
      rw [hp] at h
      cases p with
      | mk w rest =>
        obtain ⟨kvs, hkvs⟩ := objWrap_ok_obj _ w rest hp
        by_cases he : (skipWs rest).isEmpty
        · simp only [he, if_true] at h
          cases h
          exact ⟨kvs, hkvs⟩
        · simp only [he, if_false, Bool.false_eq_true] at h
          cases h

/-- A string literally beginning with `[` can only decode to an array. -/
lemma json_loads_bracket_arr (s : String) (v : Json)
    (hs : startsWithChar s '[' = true) (h : json_loads s = Except.ok v) :
    ∃ xs, v = Json.arr xs := by
  cases hd : s.data with
  | nil => simp [startsWithChar, hd] at hs
  | cons c t =>
    have hc : c = '[' := by
      simp [startsWithChar, hd] at hs
      exact hs
    subst hc
    unfold json_loads at h
    rw [hd] at h
    have hsw : skipWs ('[' :: t) = '[' :: t := by
      simp [skipWs, List.dropWhile, isJsonWs]
    rw [hsw] at h
    obtain ⟨f, hf⟩ : ∃ f, 2 * s.length + 2 = f + 1 := ⟨2 * s.length + 1, by omega⟩
    rw [hf, parseJValue_bracket_eq f t] at h
    cases hp : arrWrap (parseJItems f (skipWs t) true) with
    | error e => rw [hp] at h; cases h
    | ok p =>
      rw [hp] at h
      cases p with
      | mk w rest =>
        obtain ⟨xs, hxs⟩ := arrWrap_ok_arr _ w rest hp
        by_cases he : (skipWs rest).isEmpty
        · simp only [he, if_true] at h
          cases h
          exact ⟨xs, hxs⟩
        · simp only [he, if_false, Bool.false_eq_true] at h
          cases h

/-- Every block iteration of the parser loop succeeds. -/
lemma processBlock_ok (m : String) : ∃ l, processBlock m = Except.ok l := by
  unfold processBlock
  by_cases hg : (startsWithChar (pyStrip m) '{' || startsWithChar (pyStrip m) '[') = true
  · simp only [hg, if_true]
    cases hj : _parse_json_tool_callsE (pyStrip m) with
    | ok parsed =>
      by_cases hp : parsed.isEmpty
      · exact ⟨_parse_pythonic_tool_calls (pyStrip m), by simp [hp]⟩
      · exact ⟨parsed, by simp [hp]⟩
    | error e =>
      exfalso
      unfold _parse_json_tool_callsE at hj
      cases hl : json_loads (pyStrip m) with
      | error e2 => rw [hl] at hj; cases hj
      | ok v =>
        rw [hl] at hj
        rcases Bool.or_eq_true_iff.mp hg with hb | hb
        · obtain ⟨kvs, hkvs⟩ := json_loads_brace_obj _ _ hb hl
          subst hkvs; cases hj
        · obtain ⟨xs, hxs⟩ := json_loads_bracket_arr _ _ hb hl
          subst hxs; cases hj
  · rw [Bool.not_eq_true] at hg
    simp only [hg, Bool.false_eq_true, if_false]
    exact ⟨_, rfl⟩

/-- A single delimited block reduces the whole parse to that block. -/
lemma parse_single_block (text c : String) (h : findBlocks text = [c]) :
    parse_tool_callsE text = processBlock c := by
  unfold parse_tool_callsE
  rw [h]
  cases hp : processBlock c with
  | ok l => simp [List.foldlM, hp, Except.map]
  | error e => simp [List.foldlM, hp, Except.map]

/-- The JSON branch of the block loop, fully resolved on a decode success. -/
lemma processBlock_json (c : String) (v : Json)
    (hstart : (startsWithChar (pyStrip c) '{' || startsWithChar (pyStrip c) '[') = true)
    (hjson : json_loads (pyStrip c) = Except.ok v) :
    processBlock c =
      (if (extractNamedCalls (decodedItems v)).isEmpty then
        Except.ok (_parse_pythonic_tool_calls (pyStrip c))
      else Except.ok (extractNamedCalls (decodedItems v))) := by
  unfold processBlock
  simp only [hstart, if_true]
  rcases Bool.or_eq_true_iff.mp hstart with hb | hb
  · obtain ⟨kvs, rfl⟩ := json_loads_brace_obj _ _ hb hjson
    unfold _parse_json_tool_callsE
    rw [hjson]
    simp [decodedItems]
  · obtain ⟨xs, rfl⟩ := json_loads_bracket_arr _ _ hb hjson
    unfold _parse_json_tool_callsE
    rw [hjson]
    simp [decodedItems]

/-- The extraction loop is a `filterMap` of the per-element characterisation. -/
lemma extractNamedCalls_eq_filterMap (items : List Json) :
    extractNamedCalls items = items.filterMap namedCallOf := by
  suffices h : ∀ (its : List Json) (acc : List ToolCall),
      its.foldl (fun acc item =>
        match item with
        | Json.obj kvs =>
          match dictGet kvs "name" with
          | some n => acc ++ [{ name := n, arguments := (dictGet kvs "arguments").getD (Json.obj []) }]
          | none => acc
        | _ => acc) acc = acc ++ its.filterMap namedCallOf by
    simpa [extractNamedCalls] using h items []
  intro its
  induction its with
  | nil => intro acc; simp
  | cons x xs ih =>
    intro acc
    cases x with
    | obj kvs =>
      cases hn : dictGet kvs "name" with
      | some n => simp [List.foldl_cons, List.filterMap_cons, namedCallOf, hn, ih]
      | none => simp [List.foldl_cons, List.filterMap_cons, namedCallOf, hn, ih]
    | null => simp [List.foldl_cons, List.filterMap_cons, namedCallOf, ih]
    | bool b => simp [List.foldl_cons, List.filterMap_cons, namedCallOf, ih]
    | num n => simp [List.foldl_cons, List.filterMap_cons, namedCallOf, ih]
    | str s => simp [List.foldl_cons, List.filterMap_cons, namedCallOf, ih]
    | arr xs2 => simp [List.foldl_cons, List.filterMap_cons, namedCallOf, ih]

/-! ## Claim theorems -/

/-- C4: `ToolCallParser.parse` returns a (possibly empty) list of tool calls
and never raises an exception, for every input string — including the empty
string, text with unmatched delimiter markers, and truncated or malformed
JSON inside a delimited block.  The embedding makes the uncaught exception
surface explicit (`Except.error`); no input produces it. -/
theorem C4_parse_never_raises (response : String) :
    ∃ l, parse_tool_callsE response = Except.ok l := by
  unfold parse_tool_callsE
  suffices h : ∀ (blocks : List String) (acc : List ToolCall),
      ∃ l, blocks.foldlM (fun acc b => (processBlock b).map (fun l => acc ++ l)) acc
        = Except.ok l from h (findBlocks response) []
  intro blocks
  induction blocks with
  | nil => intro acc; exact ⟨acc, rfl⟩
  | cons b bs ih =>
    intro acc
    obtain ⟨lb, hb⟩ := processBlock_ok b
    obtain ⟨l, hl⟩ := ih (acc ++ lb)
    refine ⟨l, ?_⟩
    rw [List.foldlM_cons, hb]
    exact hl

/-- C9 counterexample: the delimited block `["foo(a=1)"]` is well-formed JSON
whose single element carries no `name` field, so the claim predicts zero
tool calls — but the parser falls through to the call-expression grammar and
yields the call `foo(a=1)`. -/
theorem C9_counterexample :
    json_loads "[\"foo(a=1)\"]" = Except.ok (Json.arr [Json.str "foo(a=1)"])
    ∧ parse_tool_calls (TOOL_CALL_START ++ "[\"foo(a=1)\"]" ++ TOOL_CALL_END)
        = [{ name := Json.str "foo", arguments := Json.obj [("a", Json.num 1)] }] :=
  ⟨rfl, rfl⟩

/-- C9 (amended): for every delimited block that is well-formed JSON (an
object or array) and yields at least one element carrying a `name` field,
`ToolCallParser.parse` yields exactly one ToolCall per name-carrying decoded
element, with `arguments` defaulting to the empty mapping when absent; a
block with zero name-carrying elements instead falls through to the
call-expression grammar. -/
theorem C9_json_block_calls (text c : String) (v : Json)
    (hblocks : findBlocks text = [c])
    (hstart : (startsWithChar (pyStrip c) '{' || startsWithChar (pyStrip c) '[') = true)
    (hjson : json_loads (pyStrip c) = Except.ok v)
    (hne : extractNamedCalls (decodedItems v) ≠ []) :
    parse_tool_callsE text = Except.ok ((decodedItems v).filterMap namedCallOf) := by
  rw [parse_single_block text c hblocks, processBlock_json c v hstart hjson,
    ← extractNamedCalls_eq_filterMap]
  simp [List.isEmpty_iff, hne]

/-- Witness for C9: a block decoding to an object with a `name` field and no
`arguments` field yields one call with empty arguments. -/
theorem C9_witness :
    parse_tool_callsE (TOOL_CALL_START ++ "\x7b\"name\": \"done\"\x7d" ++ TOOL_CALL_END)
      = Except.ok [{ name := Json.str "done", arguments := Json.obj [] }] := by
  have hne : extractNamedCalls (decodedItems (Json.obj [("name", Json.str "done")])) ≠ [] := by
    intro hh
    have hh2 : ([{ name := Json.str "done", arguments := Json.obj [] }] : List ToolCall) = [] := hh
    exact List.noConfusion hh2
  exact C9_json_block_calls (TOOL_CALL_START ++ "\x7b\"name\": \"done\"\x7d" ++ TOOL_CALL_END)
    "\x7b\"name\": \"done\"\x7d" (Json.obj [("name", Json.str "done")]) rfl rfl rfl hne

/-- C10: if a delimited block begins with `\x7b` or `[` and decodes as valid
JSON but yields zero calls carrying a `name` field, the parser does not
discard the block: it re-parses the same block text with the
call-expression grammar. -/
theorem C10_json_fallthrough (text c : String) (v : Json)
    (hblocks : findBlocks text = [c])
    (hstart : (startsWithChar (pyStrip c) '{' || startsWithChar (pyStrip c) '[') = true)
    (hjson : json_loads (pyStrip c) = Except.ok v)
    (hzero : extractNamedCalls (decodedItems v) = []) :
    parse_tool_callsE text = Except.ok (_parse_pythonic_tool_calls (pyStrip c)) := by
  rw [parse_single_block text c hblocks, processBlock_json c v hstart hjson, hzero]
  simp

/-- Witness for C10: a JSON object whose string value contains text of the
form `identifier(key=value)` contributes a tool call recovered from inside
the JSON text. -/
theorem C10_witness :
    parse_tool_callsE (TOOL_CALL_START ++ "\x7b\"x\": \"foo(a=1)\"\x7d" ++ TOOL_CALL_END)
      = Except.ok [{ name := Json.str "foo", arguments := Json.obj [("a", Json.num 1)] }] := by
  have h := C10_json_fallthrough (TOOL_CALL_START ++ "\x7b\"x\": \"foo(a=1)\"\x7d" ++ TOOL_CALL_END)
    "\x7b\"x\": \"foo(a=1)\"\x7d" (Json.obj [("x", Json.str "foo(a=1)")]) rfl rfl rfl rfl
  exact h

/-- C3: in the research decision stage, if any parsed tool call is named
`done`, or `iteration ≥ max_iterations - 1`, the next stage is
ResponseGenerationStage and `is_complete` is set to true — regardless of any
`web_search` or other calls also present in the parsed set. -/
theorem C3_done_or_budget_routes_to_respond (s : SearchState) (t : String)
    (h : (∃ tc ∈ parse_tool_calls t, jsonEqStr tc.name "done" = true)
        ∨ s.iteration ≥ s.max_iterations - 1) :
    (research_node s t).2 = RGoto.respond
    ∧ (research_node s t).1.is_complete = some true := by
  have hcond : ((parse_tool_calls t).any (fun tc => jsonEqStr tc.name "done")
      || decide (s.iteration ≥ s.max_iterations - 1)) = true := by
    rcases h with ⟨tc, htc, hname⟩ | hge
    · exact Bool.or_eq_true_iff.mpr (Or.inl (List.any_eq_true.mpr ⟨tc, htc, hname⟩))
    · exact Bool.or_eq_true_iff.mpr (Or.inr (decide_eq_true hge))
  unfold research_node
  simp only [hcond, if_true]
  exact ⟨by trivial, by trivial⟩

/-- Witness for C3: a completion containing both `done()` and a `web_search`
call still routes to the respond stage with `is_complete = true`. -/
theorem C3_witness :
    (research_node emptyState
      (TOOL_CALL_START ++ "[done(), web_search(queries=[\"x\"])]" ++ TOOL_CALL_END)).2
        = RGoto.respond
    ∧ (research_node emptyState
      (TOOL_CALL_START ++ "[done(), web_search(queries=[\"x\"])]" ++ TOOL_CALL_END)).1.is_complete
        = some true := by
  refine C3_done_or_budget_routes_to_respond emptyState _
    (Or.inl ⟨{ name := Json.str "done", arguments := Json.obj [] }, ?_, rfl⟩)
  exact List.Mem.head _

/-- C5: in the verification stage (not already short-circuited), when the
first brace-delimited substring of the completion fails to JSON-decode, the
policy is fail-open: `verification_passed := true`, feedback cleared, and
the run terminates (`__end__`) instead of retrying. -/
theorem C5_verify_fail_open (s : SearchState) (t sub : String)
    (hsc : s.verification_passed.getD false = false)
    (hex : bracesExtract t = some sub)
    (hfail : ∃ e, json_loads sub = Except.error e) :
    verify_node s t =
      ({ verification_passed := some (some true), verification_feedback := some none },
        VGoto.vend) := by
  obtain ⟨e, he⟩ := hfail
  unfold verify_node
  simp [hsc, hex, he]

/-- Witness for C5: a completion with a malformed brace block terminates the
run with `verification_passed = true`. -/
theorem C5_witness :
    verify_node emptyState "sure. {not json} done" =
      ({ verification_passed := some (some true), verification_feedback := some none },
        VGoto.vend) :=
  C5_verify_fail_open emptyState "sure. {not json} done" "{not json}" rfl rfl
    ⟨"Expecting property name", rfl⟩

lemma research_update_iteration (s : SearchState) (t : String) :
    (research_node s t).1.iteration = none := by
  simp only [research_node]
  split
  · rfl
  · split <;> rfl

lemma verify_update_iteration (s : SearchState) (t : String) :
    (verify_node s t).1.iteration = none := by
  simp only [verify_node]
  repeat' split
  all_goals rfl

/-- C6: every execution of the search stage increases `iteration` by exactly
1 and clears `pending_tool_calls`; no other stage's update touches
`iteration`, so across all stages of a run `iteration` never decreases. -/
theorem C6_iteration_monotone (s : SearchState) (inp : NodeInput) :
    s.iteration ≤ (stepState s inp).iteration
    ∧ (∀ transport : Transport,
        (stepState s (NodeInput.search transport)).iteration = s.iteration + 1
        ∧ (stepState s (NodeInput.search transport)).pending_tool_calls = []) := by
  constructor
  · cases inp with
    | suggest t => simp [stepState, suggest_queries_node, applyUpdate]
    | search tr =>
      simp only [stepState, search_node, applyUpdate, Option.getD_some]
      omega
    | research t => simp [stepState, applyUpdate, research_update_iteration]
    | respond t => simp [stepState, respond_node, applyUpdate]
    | verify t => simp [stepState, applyUpdate, verify_update_iteration]
  · intro tr
    constructor <;> simp [stepState, search_node, applyUpdate]

/-- C1 counterexample: a two-execution run.  The first search stores `[r1]`;
after the second search-stage execution `search_results` is `[r2]` alone —
the results of the first execution are gone, not accumulated in order. -/
theorem C1_counterexample :
    (stepState sInit (NodeInput.search t0)).search_results = [r1]
    ∧ (stepState (stepState sInit (NodeInput.search t0)) (NodeInput.search t0)).search_results = [r2]
    ∧ ([r2] : List SearchResult) ≠ [r1, r2] := by
  refine ⟨rfl, rfl, ?_⟩
  intro h
  have hl := congrArg List.length h
  simp at hl

/-- C1 (amended): each execution of the search stage replaces
`search_results` with exactly the results retrieved by that execution —
`search_results` is a last-value channel (no `add` reducer in `state.py`),
so the stored value is independent of whatever was there before. -/
theorem C1_search_results_replaced (transport : Transport) (s : SearchState)
    (old : List SearchResult) :
    (stepState { s with search_results := old } (NodeInput.search transport)).search_results
      = SearXNGClient.search transport (searchNodeQueries s) 5 := rfl

set_option maxRecDepth 4096 in
/-- C2 counterexample: in the retry configuration (`verification_passed =
false` with stored feedback), no message the respond stage sends to the
completion service contains the stored feedback text. -/
theorem C2_counterexample :
    sFailedVerify.verification_passed = some false
    ∧ sFailedVerify.verification_feedback = some "FEEDBACK-XYZZY"
    ∧ (respond_messages sFailedVerify).all
        (fun msg => !(strContains msg.content "FEEDBACK-XYZZY")) = true :=
  ⟨rfl, rfl, rfl⟩

/-- C2 (amended): the state carries `verification_passed` and
`verification_feedback` (written by the verification stage), but the
response-generation stage ignores them: the prompt it sends is identical
for any values of the two fields — the stored feedback is never included. -/
theorem C2_respond_prompt_ignores_verification (s : SearchState)
    (p p2 : Option Bool) (f f2 : Option String) :
    respond_messages { s with verification_passed := p, verification_feedback := f }
      = respond_messages { s with verification_passed := p2, verification_feedback := f2 } := rfl

/-- C7: the search collaborator executes at most the first 10 queries, its
result is the concatenation of at most `max_results_per_query` items per
executed query, an individual transport failure is skipped without raising
(the loop continues with the remaining queries), and when everything fails
the result is the empty list. -/
theorem C7_search_client (transport : Transport) (queries : List Json) (m : Nat) :
    SearXNGClient.search transport queries m = SearXNGClient.search transport (queries.take 10) m
    ∧ SearXNGClient.search transport queries m
        = ((queries.take 10).map (fun q => perQuery transport m q)).flatten
    ∧ (∀ q, (perQuery transport m q).length ≤ m)
    ∧ (∀ q qs, transport q = Except.error () →
        searchLoop transport m (q :: qs) = searchLoop transport m qs)
    ∧ SearXNGClient.search tFail queries m = [] := by
  have hflat : ∀ l : List Json,
      searchLoop transport m l = (l.map (fun q => perQuery transport m q)).flatten := by
    intro l
    induction l with
    | nil => rfl
    | cons q qs ih =>
      cases hq : transport q with
      | error e => simp [searchLoop, hq, perQuery, ih]
      | ok data => simp [searchLoop, hq, perQuery, ih]
  refine ⟨?_, ?_, ?_, ?_, ?_⟩
  · unfold SearXNGClient.search
    rw [List.take_take]
    simp
  · exact hflat (queries.take 10)
  · intro q
    unfold perQuery
    cases hq : transport q with
    | error e => simp
    | ok data =>
      simp only [List.length_map]
      exact List.length_take_le _ _
  · intro q qs hq
    simp [searchLoop, hq]
  · unfold SearXNGClient.search
    induction queries.take 10 with
    | nil => rfl
    | cons q qs ih => simp [searchLoop, tFail, ih]

/-- Witness for C7 at concrete transports and queries; the skip conjunct is
applied to a failing transport. -/
theorem C7_witness :
    SearXNGClient.search t0 [Json.str "q1"] 5
      = SearXNGClient.search t0 ([Json.str "q1"].take 10) 5
    ∧ searchLoop tFail 5 [Json.str "q1", Json.str "q2"] = searchLoop tFail 5 [Json.str "q2"]
    ∧ SearXNGClient.search tFail [Json.str "q1"] 5 = [] := by
  refine ⟨(C7_search_client t0 [Json.str "q1"] 5).1, ?_,
    (C7_search_client tFail [Json.str "q1"] 5).2.2.2.2⟩
  exact (C7_search_client tFail [Json.str "q1", Json.str "q2"] 5).2.2.2.1
    (Json.str "q1") [Json.str "q2"] rfl

lemma str_data_append (a b : String) : (a ++ b).data = a.data ++ b.data := rfl

lemma infix_cons_left {a : Type} (x l m : List a) (h : List.IsInfix l m) :
    List.IsInfix l (x ++ m) := by
  obtain ⟨s, t, rfl⟩ := h
  exact ⟨x ++ s, t, by simp⟩

lemma infix_left_self {a : Type} (l t : List a) : List.IsInfix l (l ++ t) :=
  ⟨[], t, by simp⟩

set_option maxRecDepth 8192 in
/-- C8: the system-prompt builder is a pure function of
`(mode, iteration, max_iterations, date)`; for every mode the output embeds
both tool-call delimiter tokens and the rendered tool catalogue, and the
catalogue contains a `__reasoning_preamble` entry exactly for the balanced
and quality modes, never for speed. -/
theorem C8_prompt_formatter (mode : Mode) (i m : Int) (d : String) :
    (∀ i2 m2 d2, i = i2 → m = m2 → d = d2 →
        format_system_prompt mode i m d = format_system_prompt mode i2 m2 d2)
    ∧ List.IsInfix TOOL_CALL_START.data (format_system_prompt mode i m d).data
    ∧ List.IsInfix TOOL_CALL_END.data (format_system_prompt mode i m d).data
    ∧ List.IsInfix (dumpsJ 0 (toolsJson mode)).data (format_system_prompt mode i m d).data
    ∧ ((∃ t ∈ get_tools_definition mode, t.name = "__reasoning_preamble")
        ↔ (mode = Mode.balanced ∨ mode = Mode.quality)) := by
  refine ⟨?_, ?_, ?_, ?_, ?_⟩
  · intro i2 m2 d2 hi hm hd
    subst hi; subst hm; subst hd
    rfl
  · cases mode <;>
      (simp only [format_system_prompt, speedPrompt, balancedPrompt, qualityPrompt,
        str_data_append, List.append_assoc]
       repeat first
        | exact infix_left_self _ _
        | apply infix_cons_left)
  · cases mode <;>
      (simp only [format_system_prompt, speedPrompt, balancedPrompt, qualityPrompt,
        str_data_append, List.append_assoc]
       repeat first
        | exact infix_left_self _ _
        | apply infix_cons_left)
  · cases mode <;>
      (simp only [format_system_prompt, speedPrompt, balancedPrompt, qualityPrompt,
        str_data_append, List.append_assoc]
       repeat first
        | exact infix_left_self _ _
        | apply infix_cons_left)
  · cases mode <;> decide

/-- Witness for C8: determinism applied at concrete inputs, and the quality
catalogue contains the `__reasoning_preamble` entry. -/
theorem C8_witness :
    format_system_prompt Mode.speed 0 3 "May 01, 2026"
      = format_system_prompt Mode.speed 0 3 "May 01, 2026"
    ∧ (∃ t ∈ get_tools_definition Mode.quality, t.name = "__reasoning_preamble") := by
  constructor
  · exact (C8_prompt_formatter Mode.speed 0 3 "May 01, 2026").1 0 3 "May 01, 2026" rfl rfl rfl
  · exact (C8_prompt_formatter Mode.quality 0 3 "May 01, 2026").2.2.2.2.mpr (Or.inr rfl)
